import Mathlib

/-!
Verification of the CardioCare cardiovascular risk scorer.

This file embeds, over exact rational arithmetic, the risk-scoring logic of
`src/backend/main.py` (`ModeloIAMedica`), its near-verbatim clones in
`src/api_medica_final.py`, `src/api_medica_corrigida.py` and
`src/api_medica_windows.py`, and the independent simulated scorer of
`src/dashboard_medico.py`, and proves the behavioural properties stated in
the design spec about them.
-/

namespace CardioCare

/-- Gender field (`genero`, Pydantic pattern `^(Masculino|Feminino)$`). -/
inductive Genero where
  | Masculino
  | Feminino
deriving DecidableEq, Repr

/-- Patient input record (Pydantic model `PacienteInput`, src/backend/main.py
lines 41-75).  Numeric float fields are embedded as exact rationals, integer
fields as integers. -/
structure PacienteInput where
  idade : ℤ
  genero : Genero
  tipo_sanguineo : String
  pressao_sistolica : ℚ
  pressao_diastolica : ℚ
  freq_cardiaca : ℚ
  peso : ℚ
  altura : ℚ
  colesterol : ℚ
  glicose : ℚ
  num_medicamentos : ℤ
  visitas_anuais : ℤ
  dor_peito : Bool
  falta_ar : Bool
  fadiga : Bool
  tontura : Bool
deriving DecidableEq, Repr

/-- The range constraints declared on `PacienteInput` via Pydantic `Field`
bounds, together with the `validar_pressao_diastolica` cross-field validator
(diastolic < systolic). -/
def Valid (d : PacienteInput) : Prop :=
  18 ≤ d.idade ∧ d.idade ≤ 120 ∧
  60 ≤ d.pressao_sistolica ∧ d.pressao_sistolica ≤ 300 ∧
  30 ≤ d.pressao_diastolica ∧ d.pressao_diastolica ≤ 200 ∧
  30 ≤ d.freq_cardiaca ∧ d.freq_cardiaca ≤ 200 ∧
  20 ≤ d.peso ∧ d.peso ≤ 300 ∧
  1 ≤ d.altura ∧ d.altura ≤ 2.5 ∧
  50 ≤ d.colesterol ∧ d.colesterol ≤ 500 ∧
  50 ≤ d.glicose ∧ d.glicose ≤ 400 ∧
  0 ≤ d.num_medicamentos ∧ d.num_medicamentos ≤ 20 ∧
  0 ≤ d.visitas_anuais ∧ d.visitas_anuais ≤ 50 ∧
  d.pressao_diastolica < d.pressao_sistolica

instance (d : PacienteInput) : Decidable (Valid d) := by
  unfold Valid
  infer_instance

/-- Python `round` to the nearest integer with ties going to the even
integer (banker's rounding), on exact rationals. -/
def roundHalfEven (x : ℚ) : ℤ :=
  if x - ⌊x⌋ < 1/2 then ⌊x⌋
  else if 1/2 < x - ⌊x⌋ then ⌊x⌋ + 1
  else if ⌊x⌋ % 2 = 0 then ⌊x⌋ else ⌊x⌋ + 1

/-- Python `round(x, 2)`. -/
def round2 (x : ℚ) : ℚ := (roundHalfEven (x * 100) : ℚ) / 100

/-- `ModeloIAMedica.calcular_bmi` (src/backend/main.py lines 122-139):
computes `peso / altura ** 2`, classifies the unrounded value, and returns
`(round(bmi, 2), classificacao)`. -/
def calcular_bmi (peso altura : ℚ) : ℚ × String :=
  let bmi := peso / altura ^ 2
  let classificacao :=
    if bmi < 18.5 then "Abaixo do peso"
    else if bmi < 25 then "Peso normal"
    else if bmi < 30 then "Sobrepeso"
    else if bmi < 35 then "Obesidade Grau I"
    else if bmi < 40 then "Obesidade Grau II"
    else "Obesidade Grau III (Morbida)"
  (round2 bmi, classificacao)

/-- Age band of `calcular_risco_avancado` (step 1, lines 163-172). -/
def pontosIdade (idade : ℤ) : ℚ :=
  if idade ≥ 75 then 0.35
  else if idade ≥ 65 then 0.25
  else if idade ≥ 55 then 0.20
  else if idade ≥ 45 then 0.15
  else if idade ≥ 35 then 0.10
  else 0

/-- Blood-pressure band of `calcular_risco_avancado` (step 2, lines 175-182). -/
def pontosPressao (sistolica diastolica : ℚ) : ℚ :=
  if sistolica ≥ 180 ∨ diastolica ≥ 120 then 0.30
  else if sistolica ≥ 140 ∨ diastolica ≥ 90 then 0.25
  else if sistolica ≥ 130 ∨ diastolica ≥ 80 then 0.15
  else if sistolica ≥ 120 then 0.05
  else 0

/-- BMI band of `calcular_risco_avancado` (step 3, lines 185-192); the
argument is the rounded BMI returned by `calcular_bmi`. -/
def pontosBMI (bmi : ℚ) : ℚ :=
  if bmi ≥ 40 then 0.25
  else if bmi ≥ 35 then 0.20
  else if bmi ≥ 30 then 0.15
  else if bmi ≥ 25 then 0.08
  else 0

/-- Cholesterol band of `calcular_risco_avancado` (step 4, lines 195-200). -/
def pontosColesterol (colesterol : ℚ) : ℚ :=
  if colesterol ≥ 300 then 0.25
  else if colesterol ≥ 240 then 0.20
  else if colesterol ≥ 200 then 0.10
  else 0

/-- Glucose band of `calcular_risco_avancado` (step 5, lines 203-208). -/
def pontosGlicose (glicose : ℚ) : ℚ :=
  if glicose ≥ 200 then 0.25
  else if glicose ≥ 126 then 0.20
  else if glicose ≥ 100 then 0.10
  else 0

/-- Symptom increments of `calcular_risco_avancado` (step 6, lines 211-218):
four independent additive flags. -/
def pontosSintomas (dor_peito falta_ar fadiga tontura : Bool) : ℚ :=
  (if dor_peito then 0.20 else 0)
  + (if falta_ar then 0.15 else 0)
  + (if fadiga then 0.10 else 0)
  + (if tontura then 0.08 else 0)

/-- Medication-count band of `calcular_risco_avancado` (step 7, lines 221-224). -/
def pontosMedicamentos (n : ℤ) : ℚ :=
  if n ≥ 5 then 0.10
  else if n ≥ 3 then 0.05
  else 0

/-- Annual-visit band of `calcular_risco_avancado` (step 7, lines 226-229). -/
def pontosVisitas (v : ℤ) : ℚ :=
  if v ≥ 6 then 0.08
  else if v ≥ 3 then 0.04
  else 0

/-- Gender modifier of `calcular_risco_avancado` (lines 232-233). -/
def pontosGenero (g : Genero) : ℚ :=
  if g = Genero.Masculino then 0.05 else 0

/-- The raw additive accumulation performed by `calcular_risco_avancado`
before the `score = min(score, 1.0)` clamp, in the order of the source. -/
def scoreBruto (d : PacienteInput) : ℚ :=
  pontosIdade d.idade
  + pontosPressao d.pressao_sistolica d.pressao_diastolica
  + pontosBMI (calcular_bmi d.peso d.altura).1
  + pontosColesterol d.colesterol
  + pontosGlicose d.glicose
  + pontosSintomas d.dor_peito d.falta_ar d.fadiga d.tontura
  + pontosMedicamentos d.num_medicamentos
  + pontosVisitas d.visitas_anuais
  + pontosGenero d.genero

/-- The clamped score `score = min(score, 1.0)` (line 236). -/
def riscoScore (d : PacienteInput) : ℚ := min (scoreBruto d) 1

/-- `ModeloIAMedica.calcular_risco_avancado` (src/backend/main.py lines
154-253): returns `(categoria, probabilidade, score, confianca)`.  The final
clamp `probabilidade = max(0.01, min(0.99, probabilidade))` of line 251 is
applied to whichever branch computed the probability. -/
def calcular_risco_avancado (d : PacienteInput) : String × ℚ × ℚ × ℚ :=
  let score := riscoScore d
  if score ≥ 0.75 then
    ("Alto Risco", max 0.01 (min 0.99 (0.85 + (score - 0.75) * 0.6)), score, 0.92)
  else if score ≥ 0.45 then
    ("Medio Risco", max 0.01 (min 0.99 (0.30 + (score - 0.45) * 1.83)), score, 0.88)
  else
    ("Baixo Risco", max 0.01 (min 0.99 (score * 0.67)), score, 0.85)

/-- `ModeloIAMedica.calcular_risco_avancado` of src/api_medica_final.py
(lines 168-272), transliterated independently from that file's duplicated
if/elif ladders. -/
def calcular_risco_avancado_final (d : PacienteInput) : String × ℚ × ℚ × ℚ :=
  let score : ℚ :=
    (if d.idade ≥ 75 then 0.35
     else if d.idade ≥ 65 then 0.25
     else if d.idade ≥ 55 then 0.20
     else if d.idade ≥ 45 then 0.15
     else if d.idade ≥ 35 then 0.10
     else 0)
    + (if d.pressao_sistolica ≥ 180 ∨ d.pressao_diastolica ≥ 120 then 0.30
       else if d.pressao_sistolica ≥ 140 ∨ d.pressao_diastolica ≥ 90 then 0.25
       else if d.pressao_sistolica ≥ 130 ∨ d.pressao_diastolica ≥ 80 then 0.15
       else if d.pressao_sistolica ≥ 120 then 0.05
       else 0)
    + (if (calcular_bmi d.peso d.altura).1 ≥ 40 then 0.25
       else if (calcular_bmi d.peso d.altura).1 ≥ 35 then 0.20
       else if (calcular_bmi d.peso d.altura).1 ≥ 30 then 0.15
       else if (calcular_bmi d.peso d.altura).1 ≥ 25 then 0.08
       else 0)
    + (if d.colesterol ≥ 300 then 0.25
       else if d.colesterol ≥ 240 then 0.20
       else if d.colesterol ≥ 200 then 0.10
       else 0)
    + (if d.glicose ≥ 200 then 0.25
       else if d.glicose ≥ 126 then 0.20
       else if d.glicose ≥ 100 then 0.10
       else 0)
    + ((if d.dor_peito then 0.20 else 0)
       + (if d.falta_ar then 0.15 else 0)
       + (if d.fadiga then 0.10 else 0)
       + (if d.tontura then 0.08 else 0))
    + (if d.num_medicamentos ≥ 5 then 0.10
       else if d.num_medicamentos ≥ 3 then 0.05
       else 0)
    + (if d.visitas_anuais ≥ 6 then 0.08
       else if d.visitas_anuais ≥ 3 then 0.04
       else 0)
    + (if d.genero = Genero.Masculino then 0.05 else 0)
  let score := min score 1
  if score ≥ 0.75 then
    ("Alto Risco", max 0.01 (min 0.99 (0.85 + (score - 0.75) * 0.6)), score, 0.92)
  else if score ≥ 0.45 then
    ("Medio Risco", max 0.01 (min 0.99 (0.30 + (score - 0.45) * 1.83)), score, 0.88)
  else
    ("Baixo Risco", max 0.01 (min 0.99 (score * 0.67)), score, 0.85)

/-- `ModeloIAMedica.calcular_risco_avancado` of src/api_medica_windows.py
(lines 120-215), transliterated independently from that file. -/
def calcular_risco_avancado_windows (d : PacienteInput) : String × ℚ × ℚ × ℚ :=
  let score : ℚ :=
    (if d.idade ≥ 75 then 0.35
     else if d.idade ≥ 65 then 0.25
     else if d.idade ≥ 55 then 0.20
     else if d.idade ≥ 45 then 0.15
     else if d.idade ≥ 35 then 0.10
     else 0)
    + (if d.pressao_sistolica ≥ 180 ∨ d.pressao_diastolica ≥ 120 then 0.30
       else if d.pressao_sistolica ≥ 140 ∨ d.pressao_diastolica ≥ 90 then 0.25
       else if d.pressao_sistolica ≥ 130 ∨ d.pressao_diastolica ≥ 80 then 0.15
       else if d.pressao_sistolica ≥ 120 then 0.05
       else 0)
    + (if (calcular_bmi d.peso d.altura).1 ≥ 40 then 0.25
       else if (calcular_bmi d.peso d.altura).1 ≥ 35 then 0.20
       else if (calcular_bmi d.peso d.altura).1 ≥ 30 then 0.15
       else if (calcular_bmi d.peso d.altura).1 ≥ 25 then 0.08
       else 0)
    + (if d.colesterol ≥ 300 then 0.25
       else if d.colesterol ≥ 240 then 0.20
       else if d.colesterol ≥ 200 then 0.10
       else 0)
    + (if d.glicose ≥ 200 then 0.25
       else if d.glicose ≥ 126 then 0.20
       else if d.glicose ≥ 100 then 0.10
       else 0)
    + ((if d.dor_peito then 0.20 else 0)
       + (if d.falta_ar then 0.15 else 0)
       + (if d.fadiga then 0.10 else 0)
       + (if d.tontura then 0.08 else 0))
    + (if d.num_medicamentos ≥ 5 then 0.10
       else if d.num_medicamentos ≥ 3 then 0.05
       else 0)
    + (if d.visitas_anuais ≥ 6 then 0.08
       else if d.visitas_anuais ≥ 3 then 0.04
       else 0)
    + (if d.genero = Genero.Masculino then 0.05 else 0)
  let score := min score 1
  if score ≥ 0.75 then
    ("Alto Risco", max 0.01 (min 0.99 (0.85 + (score - 0.75) * 0.6)), score, 0.92)
  else if score ≥ 0.45 then
    ("Medio Risco", max 0.01 (min 0.99 (0.30 + (score - 0.45) * 1.83)), score, 0.88)
  else
    ("Baixo Risco", max 0.01 (min 0.99 (score * 0.67)), score, 0.85)

/-- `ModeloIAMedica.calcular_risco_avancado` of src/api_medica_corrigida.py
(lines 173-277), transliterated independently from that file.  Its medium
category string carries an accent: `"Médio Risco"`. -/
def calcular_risco_avancado_corrigida (d : PacienteInput) : String × ℚ × ℚ × ℚ :=
  let score : ℚ :=
    (if d.idade ≥ 75 then 0.35
     else if d.idade ≥ 65 then 0.25
     else if d.idade ≥ 55 then 0.20
     else if d.idade ≥ 45 then 0.15
     else if d.idade ≥ 35 then 0.10
     else 0)
    + (if d.pressao_sistolica ≥ 180 ∨ d.pressao_diastolica ≥ 120 then 0.30
       else if d.pressao_sistolica ≥ 140 ∨ d.pressao_diastolica ≥ 90 then 0.25
       else if d.pressao_sistolica ≥ 130 ∨ d.pressao_diastolica ≥ 80 then 0.15
       else if d.pressao_sistolica ≥ 120 then 0.05
       else 0)
    + (if (calcular_bmi d.peso d.altura).1 ≥ 40 then 0.25
       else if (calcular_bmi d.peso d.altura).1 ≥ 35 then 0.20
       else if (calcular_bmi d.peso d.altura).1 ≥ 30 then 0.15
       else if (calcular_bmi d.peso d.altura).1 ≥ 25 then 0.08
       else 0)
    + (if d.colesterol ≥ 300 then 0.25
       else if d.colesterol ≥ 240 then 0.20
       else if d.colesterol ≥ 200 then 0.10
       else 0)
    + (if d.glicose ≥ 200 then 0.25
       else if d.glicose ≥ 126 then 0.20
       else if d.glicose ≥ 100 then 0.10
       else 0)
    + ((if d.dor_peito then 0.20 else 0)
       + (if d.falta_ar then 0.15 else 0)
       + (if d.fadiga then 0.10 else 0)
       + (if d.tontura then 0.08 else 0))
    + (if d.num_medicamentos ≥ 5 then 0.10
       else if d.num_medicamentos ≥ 3 then 0.05
       else 0)
    + (if d.visitas_anuais ≥ 6 then 0.08
       else if d.visitas_anuais ≥ 3 then 0.04
       else 0)
    + (if d.genero = Genero.Masculino then 0.05 else 0)
  let score := min score 1
  if score ≥ 0.75 then
    ("Alto Risco", max 0.01 (min 0.99 (0.85 + (score - 0.75) * 0.6)), score, 0.92)
  else if score ≥ 0.45 then
    ("Médio Risco", max 0.01 (min 0.99 (0.30 + (score - 0.45) * 1.83)), score, 0.88)
  else
    ("Baixo Risco", max 0.01 (min 0.99 (score * 0.67)), score, 0.85)

/-- SHAP-style explanation entry (Pydantic model `ExplicacaoSHAP`,
src/backend/main.py lines 91-98).  Python string interpolation of numbers is
embedded via `toString`. -/
structure ExplicacaoSHAP where
  fator : String
  valor : ℚ
  impacto : ℚ
  interpretacao : String
  categoria : String
deriving DecidableEq, Repr

/-- Explanation response (Pydantic model `ExplicacoesResponse`,
src/backend/main.py lines 100-106). -/
structure ExplicacoesResponse where
  fatores_risco : List ExplicacaoSHAP
  fatores_protecao : List ExplicacaoSHAP
  interpretacao_geral : String
  recomendacoes : List String
deriving DecidableEq, Repr

/-- `ModeloIAMedica.gerar_explicacoes_shap` (src/backend/main.py lines
255-351).  The Python function receives the prediction in a `resultado` dict
and reads only `resultado['categoria']`, embedded here as the `categoria`
argument.  Appends to `fatores_risco` in source order: Idade, Pressao
Sistolica, BMI, Dor no Peito; no sorting is performed. -/
def gerar_explicacoes_shap (dados : PacienteInput) (categoria : String) :
    ExplicacoesResponse :=
  let bmi := (calcular_bmi dados.peso dados.altura).1
  let fatores_risco : List ExplicacaoSHAP :=
    (if dados.idade > 50 then
      [{ fator := "Idade", valor := (dados.idade : ℚ),
         impacto := ((dados.idade : ℚ) - 50) * 0.005,
         interpretacao := "Idade de " ++ toString dados.idade
           ++ " anos aumenta o risco cardiovascular",
         categoria := "increase_risk" }]
     else [])
    ++ (if dados.pressao_sistolica > 140 then
      [{ fator := "Pressao Sistolica", valor := dados.pressao_sistolica,
         impacto := (dados.pressao_sistolica - 140) * 0.003,
         interpretacao := "Hipertensao (PAS: " ++ toString dados.pressao_sistolica
           ++ " mmHg) e fator de risco importante",
         categoria := "increase_risk" }]
     else [])
    ++ (if bmi > 30 then
      [{ fator := "BMI", valor := bmi,
         impacto := (bmi - 30) * 0.015,
         interpretacao := "Obesidade (BMI: " ++ toString bmi
           ++ ") aumenta significativamente o risco",
         categoria := "increase_risk" }]
     else [])
    ++ (if dados.dor_peito then
      [{ fator := "Dor no Peito", valor := 1, impacto := 0.20,
         interpretacao := "Dor toracica e sintoma cardinal de risco cardiovascular",
         categoria := "increase_risk" }]
     else [])
  let fatores_protecao : List ExplicacaoSHAP :=
    (if dados.idade < 40 then
      [{ fator := "Idade Jovem", valor := (dados.idade : ℚ), impacto := -0.05,
         interpretacao := "Idade de " ++ toString dados.idade ++ " anos e fator protetor",
         categoria := "decrease_risk" }]
     else [])
    ++ (if bmi ≥ 18.5 ∧ bmi ≤ 24.9 then
      [{ fator := "Peso Normal", valor := bmi, impacto := -0.03,
         interpretacao := "BMI normal (" ++ toString bmi ++ ") e fator protetor",
         categoria := "decrease_risk" }]
     else [])
  let interpretacao_geral :=
    if categoria = "Alto Risco" then
      "Paciente apresenta multiplos fatores de risco que elevam significativamente a probabilidade de eventos cardiovasculares. Recomenda-se avaliacao cardiologica imediata e intervencoes terapeuticas intensivas."
    else if categoria = "Medio Risco" then
      "Paciente apresenta alguns fatores de risco que requerem monitoramento regular e intervencoes preventivas. Modificacoes no estilo de vida e acompanhamento medico sao essenciais."
    else
      "Paciente apresenta baixo risco cardiovascular atual, mas deve manter habitos preventivos e consultas regulares para monitoramento continuo."
  let recomendacoesBase : List String :=
    (if dados.pressao_sistolica > 140 then
      ["🩺 Controle rigoroso da hipertensao arterial com medicacao otimizada"] else [])
    ++ (if bmi > 30 then
      ["⚖️ Programa estruturado de reducao de peso com nutricionalista"] else [])
    ++ (if dados.dor_peito then
      ["🚨 Investigacao cardiologica imediata com ECG e marcadores cardiacos"] else [])
    ++ (if dados.colesterol > 240 then
      ["💊 Tratamento da dislipidemia com estatinas conforme protocolo"] else [])
    ++ (if dados.glicose > 126 then
      ["🍎 Controle glicemico rigoroso e avaliacao endocrinologica"] else [])
  let recomendacoes :=
    if recomendacoesBase = [] then
      ["✅ Manter habitos saudaveis e consultas preventivas regulares"]
    else recomendacoesBase
  { fatores_risco := fatores_risco, fatores_protecao := fatores_protecao,
    interpretacao_geral := interpretacao_geral, recomendacoes := recomendacoes }

/-- The `dados` dict assembled by the dashboard sidebar
(src/dashboard_medico.py lines 139-155); `bmi` is the unrounded
`peso / altura ** 2` computed at line 108, and the symptom flags are stored
as 0/1 integers, embedded here as `Bool`. -/
structure DadosDashboard where
  idade : ℤ
  genero : String
  tipo_sanguineo : String
  pressao_sistolica : ℚ
  pressao_diastolica : ℚ
  freq_cardiaca : ℚ
  bmi : ℚ
  colesterol : ℚ
  glicose : ℚ
  num_medicamentos : ℤ
  visitas_anuais : ℤ
  dor_peito : Bool
  falta_ar : Bool
  fadiga : Bool
  tontura : Bool
deriving DecidableEq, Repr

/-- `DashboardMedico.calcular_risco_simulado` (src/dashboard_medico.py lines
159-222): returns the dict `(categoria, probabilidade, score, cor)`.  All
comparisons are strict, the symptom weights differ from the API, there is no
gender modifier, no medication or visit factor, the category thresholds are
0.7 and 0.4, and the score is not clamped at 1.0. -/
def calcular_risco_simulado (dados : DadosDashboard) : String × ℚ × ℚ × String :=
  let score : ℚ :=
    (if dados.idade > 65 then 0.3
     else if dados.idade > 50 then 0.2
     else if dados.idade > 35 then 0.1
     else 0)
    + (if dados.pressao_sistolica > 140 ∨ dados.pressao_diastolica > 90 then 0.25
       else if dados.pressao_sistolica > 130 ∨ dados.pressao_diastolica > 85 then 0.15
       else 0)
    + (if dados.bmi > 30 then 0.2
       else if dados.bmi > 25 then 0.1
       else 0)
    + (if dados.colesterol > 240 then 0.2
       else if dados.colesterol > 200 then 0.1
       else 0)
    + (if dados.glicose > 126 then 0.15
       else if dados.glicose > 100 then 0.05
       else 0)
    + (if dados.dor_peito then 0.15 else 0)
    + (if dados.falta_ar then 0.1 else 0)
    + (if dados.fadiga then 0.08 else 0)
    + (if dados.tontura then 0.05 else 0)
  if score ≥ 0.7 then
    ("Alto Risco", min 0.95 (0.7 + score * 0.3), score, "#dc3545")
  else if score ≥ 0.4 then
    ("Médio Risco", 0.4 + score * 0.4, score, "#ffc107")
  else
    ("Baixo Risco", max 0.05 (score * 0.5), score, "#28a745")

/-- Category as a function of the clamped score alone, following the spec's
classification table (spec section 4.1 step 4). -/
def specCategoria (s : ℚ) : String :=
  if s ≥ 0.75 then "Alto Risco"
  else if s ≥ 0.45 then "Medio Risco"
  else "Baixo Risco"

/-- Probability as a function of the clamped score alone, following the
spec's affine maps and final clamp (spec section 4.1 steps 4-5). -/
def specProbabilidade (s : ℚ) : ℚ :=
  if s ≥ 0.75 then max 0.01 (min 0.99 (0.85 + (s - 0.75) * 0.6))
  else if s ≥ 0.45 then max 0.01 (min 0.99 (0.30 + (s - 0.45) * 1.83))
  else max 0.01 (min 0.99 (s * 0.67))

/-- Confidence as a function of the clamped score alone (spec section 4.1
step 4). -/
def specConfianca (s : ℚ) : ℚ :=
  if s ≥ 0.75 then 0.92
  else if s ≥ 0.45 then 0.88
  else 0.85

/-- The spec's first worked example (spec section 8; also the
`exemplo_baixo_risco` payload of the `/exemplo-paciente` endpoint,
src/backend/main.py lines 462-479). -/
def exemploBaixoRisco : PacienteInput :=
  { idade := 35, genero := Genero.Feminino, tipo_sanguineo := "O+",
    pressao_sistolica := 110, pressao_diastolica := 70, freq_cardiaca := 68,
    peso := 65, altura := 1.65, colesterol := 180, glicose := 90,
    num_medicamentos := 0, visitas_anuais := 1,
    dor_peito := false, falta_ar := false, fadiga := false, tontura := false }

/-- The `exemplo_medio_risco` payload of the `/exemplo-paciente` endpoint
(src/backend/main.py lines 480-497). -/
def exemploMedioRisco : PacienteInput :=
  { idade := 50, genero := Genero.Masculino, tipo_sanguineo := "A+",
    pressao_sistolica := 135, pressao_diastolica := 85, freq_cardiaca := 75,
    peso := 85, altura := 1.75, colesterol := 220, glicose := 105,
    num_medicamentos := 2, visitas_anuais := 2,
    dor_peito := false, falta_ar := false, fadiga := true, tontura := false }

/-- The spec's second worked example (spec section 8; also the
`exemplo_alto_risco` payload of the `/exemplo-paciente` endpoint,
src/backend/main.py lines 498-515). -/
def exemploAltoRisco : PacienteInput :=
  { idade := 65, genero := Genero.Masculino, tipo_sanguineo := "A+",
    pressao_sistolica := 165, pressao_diastolica := 95, freq_cardiaca := 85,
    peso := 95, altura := 1.75, colesterol := 280, glicose := 140,
    num_medicamentos := 4, visitas_anuais := 6,
    dor_peito := true, falta_ar := true, fadiga := true, tontura := false }

/-- A valid record whose raw BMI 24.996 lies just below the 25 band
boundary but rounds up to 25.00. -/
def exemploBMI : PacienteInput :=
  { idade := 18, genero := Genero.Feminino, tipo_sanguineo := "O+",
    pressao_sistolica := 100, pressao_diastolica := 60, freq_cardiaca := 60,
    peso := 24.996, altura := 1, colesterol := 150, glicose := 80,
    num_medicamentos := 0, visitas_anuais := 0,
    dor_peito := false, falta_ar := false, fadiga := false, tontura := false }

/-- A valid record for which `gerar_explicacoes_shap` emits an age factor of
small impact (0.005) before the fixed chest-pain factor (0.20). -/
def exemploExplicacao : PacienteInput :=
  { idade := 51, genero := Genero.Feminino, tipo_sanguineo := "O+",
    pressao_sistolica := 119, pressao_diastolica := 70, freq_cardiaca := 70,
    peso := 60, altura := 1.7, colesterol := 150, glicose := 80,
    num_medicamentos := 0, visitas_anuais := 0,
    dor_peito := true, falta_ar := false, fadiga := false, tontura := false }

/-- A valid record on which the dashboard and API scorers disagree on the
category: age 55, male, cholesterol exactly 200, glucose exactly 100, every
other factor below all thresholds. -/
def exemploDivergente : PacienteInput :=
  { idade := 55, genero := Genero.Masculino, tipo_sanguineo := "A+",
    pressao_sistolica := 110, pressao_diastolica := 70, freq_cardiaca := 70,
    peso := 60, altura := 1.7, colesterol := 200, glicose := 100,
    num_medicamentos := 0, visitas_anuais := 0,
    dor_peito := false, falta_ar := false, fadiga := false, tontura := false }

/-- The dashboard `dados` dict assembled from the same patient as
`exemploDivergente` (the dashboard passes the unrounded `peso / altura ** 2`
as `bmi`). -/
def dadosDivergente : DadosDashboard :=
  { idade := 55, genero := "Masculino", tipo_sanguineo := "A+",
    pressao_sistolica := 110, pressao_diastolica := 70, freq_cardiaca := 70,
    bmi := 60 / (1.7 : ℚ) ^ 2, colesterol := 200, glicose := 100,
    num_medicamentos := 0, visitas_anuais := 0,
    dor_peito := false, falta_ar := false, fadiga := false, tontura := false }

/-- A dashboard input whose increments sum to 1.48, exhibiting that
`calcular_risco_simulado` does not clamp the score at 1.0. -/
def dadosExtremos : DadosDashboard :=
  { idade := 70, genero := "Masculino", tipo_sanguineo := "A+",
    pressao_sistolica := 160, pressao_diastolica := 100, freq_cardiaca := 90,
    bmi := 32, colesterol := 250, glicose := 130,
    num_medicamentos := 5, visitas_anuais := 6,
    dor_peito := true, falta_ar := true, fadiga := true, tontura := true }

/-! ### Basic facts about the band functions -/

@[simp] lemma feminino_ne_masculino : (Genero.Feminino = Genero.Masculino) ↔ False :=
  ⟨fun h => Genero.noConfusion h, False.elim⟩

lemma pontosIdade_nonneg (i : ℤ) : 0 ≤ pontosIdade i := by
  unfold pontosIdade; split_ifs <;> norm_num

lemma pontosPressao_nonneg (s d : ℚ) : 0 ≤ pontosPressao s d := by
  unfold pontosPressao; split_ifs <;> norm_num

lemma pontosBMI_nonneg (b : ℚ) : 0 ≤ pontosBMI b := by
  unfold pontosBMI; split_ifs <;> norm_num

lemma pontosColesterol_nonneg (c : ℚ) : 0 ≤ pontosColesterol c := by
  unfold pontosColesterol; split_ifs <;> norm_num

lemma pontosGlicose_nonneg (g : ℚ) : 0 ≤ pontosGlicose g := by
  unfold pontosGlicose; split_ifs <;> norm_num

lemma pontosSintomas_nonneg (a b c d : Bool) : 0 ≤ pontosSintomas a b c d := by
  unfold pontosSintomas; split_ifs <;> norm_num

lemma pontosMedicamentos_nonneg (n : ℤ) : 0 ≤ pontosMedicamentos n := by
  unfold pontosMedicamentos; split_ifs <;> norm_num

lemma pontosVisitas_nonneg (v : ℤ) : 0 ≤ pontosVisitas v := by
  unfold pontosVisitas; split_ifs <;> norm_num

lemma pontosGenero_nonneg (g : Genero) : 0 ≤ pontosGenero g := by
  unfold pontosGenero; split_ifs <;> norm_num

lemma scoreBruto_nonneg (d : PacienteInput) : 0 ≤ scoreBruto d := by
  unfold scoreBruto
  have h1 := pontosIdade_nonneg d.idade
  have h2 := pontosPressao_nonneg d.pressao_sistolica d.pressao_diastolica
  have h3 := pontosBMI_nonneg (calcular_bmi d.peso d.altura).1
  have h4 := pontosColesterol_nonneg d.colesterol
  have h5 := pontosGlicose_nonneg d.glicose
  have h6 := pontosSintomas_nonneg d.dor_peito d.falta_ar d.fadiga d.tontura
  have h7 := pontosMedicamentos_nonneg d.num_medicamentos
  have h8 := pontosVisitas_nonneg d.visitas_anuais
  have h9 := pontosGenero_nonneg d.genero
  linarith

lemma riscoScore_nonneg (d : PacienteInput) : 0 ≤ riscoScore d :=
  le_min (scoreBruto_nonneg d) zero_le_one

lemma riscoScore_le_one (d : PacienteInput) : riscoScore d ≤ 1 :=
  min_le_right _ _

/-! ### Every increment is a multiple of 0.01 -/

/-- A rational that is a whole non-negative number of hundredths. -/
def Cem (q : ℚ) : Prop := ∃ n : ℕ, q = n / 100

lemma Cem.add {a b : ℚ} (ha : Cem a) (hb : Cem b) : Cem (a + b) := by
  obtain ⟨n, hn⟩ := ha
  obtain ⟨m, hm⟩ := hb
  exact ⟨n + m, by rw [hn, hm]; push_cast; ring⟩

lemma pontosIdade_cem (i : ℤ) : Cem (pontosIdade i) := by
  unfold pontosIdade; split_ifs
  exacts [⟨35, by norm_num⟩, ⟨25, by norm_num⟩, ⟨20, by norm_num⟩,
    ⟨15, by norm_num⟩, ⟨10, by norm_num⟩, ⟨0, by norm_num⟩]

lemma pontosPressao_cem (s d : ℚ) : Cem (pontosPressao s d) := by
  unfold pontosPressao; split_ifs
  exacts [⟨30, by norm_num⟩, ⟨25, by norm_num⟩, ⟨15, by norm_num⟩,
    ⟨5, by norm_num⟩, ⟨0, by norm_num⟩]

lemma pontosBMI_cem (b : ℚ) : Cem (pontosBMI b) := by
  unfold pontosBMI; split_ifs
  exacts [⟨25, by norm_num⟩, ⟨20, by norm_num⟩, ⟨15, by norm_num⟩,
    ⟨8, by norm_num⟩, ⟨0, by norm_num⟩]

lemma pontosColesterol_cem (c : ℚ) : Cem (pontosColesterol c) := by
  unfold pontosColesterol; split_ifs
  exacts [⟨25, by norm_num⟩, ⟨20, by norm_num⟩, ⟨10, by norm_num⟩, ⟨0, by norm_num⟩]

lemma pontosGlicose_cem (g : ℚ) : Cem (pontosGlicose g) := by
  unfold pontosGlicose; split_ifs
  exacts [⟨25, by norm_num⟩, ⟨20, by norm_num⟩, ⟨10, by norm_num⟩, ⟨0, by norm_num⟩]

lemma pontosSintomas_cem (a b c d : Bool) : Cem (pontosSintomas a b c d) := by
  unfold pontosSintomas
  have h1 : Cem (if a then (0.20 : ℚ) else 0) := by
    cases a
    · exact ⟨0, by norm_num⟩
    · exact ⟨20, by norm_num⟩
  have h2 : Cem (if b then (0.15 : ℚ) else 0) := by
    cases b
    · exact ⟨0, by norm_num⟩
    · exact ⟨15, by norm_num⟩
  have h3 : Cem (if c then (0.10 : ℚ) else 0) := by
    cases c
    · exact ⟨0, by norm_num⟩
    · exact ⟨10, by norm_num⟩
  have h4 : Cem (if d then (0.08 : ℚ) else 0) := by
    cases d
    · exact ⟨0, by norm_num⟩
    · exact ⟨8, by norm_num⟩
  exact ((h1.add h2).add h3).add h4

lemma pontosMedicamentos_cem (n : ℤ) : Cem (pontosMedicamentos n) := by
  unfold pontosMedicamentos; split_ifs
  exacts [⟨10, by norm_num⟩, ⟨5, by norm_num⟩, ⟨0, by norm_num⟩]

lemma pontosVisitas_cem (v : ℤ) : Cem (pontosVisitas v) := by
  unfold pontosVisitas; split_ifs
  exacts [⟨8, by norm_num⟩, ⟨4, by norm_num⟩, ⟨0, by norm_num⟩]

lemma pontosGenero_cem (g : Genero) : Cem (pontosGenero g) := by
  unfold pontosGenero; split_ifs
  exacts [⟨5, by norm_num⟩, ⟨0, by norm_num⟩]

lemma scoreBruto_cem (d : PacienteInput) : Cem (scoreBruto d) := by
  unfold scoreBruto
  exact ((((((((pontosIdade_cem d.idade).add
    (pontosPressao_cem d.pressao_sistolica d.pressao_diastolica)).add
    (pontosBMI_cem (calcular_bmi d.peso d.altura).1)).add
    (pontosColesterol_cem d.colesterol)).add
    (pontosGlicose_cem d.glicose)).add
    (pontosSintomas_cem d.dor_peito d.falta_ar d.fadiga d.tontura)).add
    (pontosMedicamentos_cem d.num_medicamentos)).add
    (pontosVisitas_cem d.visitas_anuais)).add
    (pontosGenero_cem d.genero)

/-! ### Monotonicity of the band functions -/

lemma pontosIdade_mono {i i' : ℤ} (h : i ≤ i') : pontosIdade i ≤ pontosIdade i' := by
  unfold pontosIdade
  split_ifs <;> first | (exfalso; omega) | norm_num

lemma pontosPressao_mono_sistolica {s s' d : ℚ} (h : s ≤ s') :
    pontosPressao s d ≤ pontosPressao s' d := by
  unfold pontosPressao
  split_ifs <;> (try push_neg at *) <;> (try casesm* _ ∨ _) <;> linarith

lemma pontosPressao_mono_diastolica {s d d' : ℚ} (h : d ≤ d') :
    pontosPressao s d ≤ pontosPressao s d' := by
  unfold pontosPressao
  split_ifs <;> (try push_neg at *) <;> (try casesm* _ ∨ _) <;> linarith

lemma pontosBMI_mono {b b' : ℚ} (h : b ≤ b') : pontosBMI b ≤ pontosBMI b' := by
  unfold pontosBMI
  split_ifs <;> (try push_neg at *) <;> linarith

lemma pontosColesterol_mono {c c' : ℚ} (h : c ≤ c') :
    pontosColesterol c ≤ pontosColesterol c' := by
  unfold pontosColesterol
  split_ifs <;> (try push_neg at *) <;> linarith

lemma pontosGlicose_mono {g g' : ℚ} (h : g ≤ g') :
    pontosGlicose g ≤ pontosGlicose g' := by
  unfold pontosGlicose
  split_ifs <;> (try push_neg at *) <;> linarith

lemma pontosMedicamentos_mono {n n' : ℤ} (h : n ≤ n') :
    pontosMedicamentos n ≤ pontosMedicamentos n' := by
  unfold pontosMedicamentos
  split_ifs <;> first | (exfalso; omega) | norm_num

lemma pontosVisitas_mono {v v' : ℤ} (h : v ≤ v') :
    pontosVisitas v ≤ pontosVisitas v' := by
  unfold pontosVisitas
  split_ifs <;> first | (exfalso; omega) | norm_num

/-! ### Monotonicity of banker's rounding -/

lemma le_roundHalfEven (x : ℚ) : ⌊x⌋ ≤ roundHalfEven x := by
  unfold roundHalfEven
  split_ifs <;> omega

lemma roundHalfEven_le (x : ℚ) : roundHalfEven x ≤ ⌊x⌋ + 1 := by
  unfold roundHalfEven
  split_ifs <;> omega

lemma roundHalfEven_mono {x y : ℚ} (h : x ≤ y) :
    roundHalfEven x ≤ roundHalfEven y := by
  rcases lt_or_eq_of_le (Int.floor_le_floor h) with hf | hf
  · calc roundHalfEven x ≤ ⌊x⌋ + 1 := roundHalfEven_le x
      _ ≤ ⌊y⌋ := by omega
      _ ≤ roundHalfEven y := le_roundHalfEven y
  · unfold roundHalfEven
    rw [← hf]
    split_ifs <;> first | omega | linarith

lemma round2_mono {x y : ℚ} (h : x ≤ y) : round2 x ≤ round2 y := by
  unfold round2
  have h1 : roundHalfEven (x * 100) ≤ roundHalfEven (y * 100) :=
    roundHalfEven_mono (by linarith)
  have h2 : ((roundHalfEven (x * 100) : ℤ) : ℚ) ≤ ((roundHalfEven (y * 100) : ℤ) : ℚ) := by
    exact_mod_cast h1
  linarith

lemma calcular_bmi_mono_peso {p p' a : ℚ} (h : p ≤ p') :
    (calcular_bmi p a).1 ≤ (calcular_bmi p' a).1 := by
  simp only [calcular_bmi]
  apply round2_mono
  rcases eq_or_ne a 0 with ha | ha
  · simp [ha]
  · have hpos : 0 < a ^ 2 := by positivity
    exact (div_le_div_iff_of_pos_right hpos).mpr h

lemma pontosSintomas_mono_dor (b c e : Bool) :
    pontosSintomas false b c e ≤ pontosSintomas true b c e := by
  unfold pontosSintomas
  cases b <;> cases c <;> cases e <;> norm_num

lemma pontosSintomas_mono_ar (a c e : Bool) :
    pontosSintomas a false c e ≤ pontosSintomas a true c e := by
  unfold pontosSintomas
  cases a <;> cases c <;> cases e <;> norm_num

lemma pontosSintomas_mono_fadiga (a b e : Bool) :
    pontosSintomas a b false e ≤ pontosSintomas a b true e := by
  unfold pontosSintomas
  cases a <;> cases b <;> cases e <;> norm_num

lemma pontosSintomas_mono_tontura (a b c : Bool) :
    pontosSintomas a b c false ≤ pontosSintomas a b c true := by
  unfold pontosSintomas
  cases a <;> cases b <;> cases c <;> norm_num

/-! ### The claims -/

/-- C1: for every patient record the returned (category, probability,
confidence) is determined solely by the clamped score: the output of
`calcular_risco_avancado` equals the spec's fixed-threshold functions
`specCategoria`, `specProbabilidade` (affine maps with final clamp to
[0.01, 0.99]) and `specConfianca` applied to `riscoScore` alone; the
boundary scores behave as stated (0.44 is Low, 0.45 is Medium, 0.75 is
High), and no other state influences the mapping. -/
theorem categoria_determinada_somente_pelo_score :
    (∀ d : PacienteInput,
      calcular_risco_avancado d =
        (specCategoria (riscoScore d), specProbabilidade (riscoScore d),
          riscoScore d, specConfianca (riscoScore d)))
    ∧ specCategoria 0.44 = "Baixo Risco"
    ∧ specCategoria 0.45 = "Medio Risco"
    ∧ specCategoria 0.75 = "Alto Risco" := by
  refine ⟨fun d => ?_, by norm_num [specCategoria], by norm_num [specCategoria],
    by norm_num [specCategoria]⟩
  simp only [calcular_risco_avancado, specCategoria, specProbabilidade, specConfianca]
  split_ifs <;> rfl

/-- C2: for every patient record (in particular every valid one) the
returned score lies in [0, 1] — non-negative increments accumulated from 0,
then clamped above at 1.0 — and the returned probability lies in
[0.01, 0.99]. -/
theorem score_e_probabilidade_limitados (d : PacienteInput) :
    0 ≤ (calcular_risco_avancado d).2.2.1
    ∧ (calcular_risco_avancado d).2.2.1 ≤ 1
    ∧ 0.01 ≤ (calcular_risco_avancado d).2.1
    ∧ (calcular_risco_avancado d).2.1 ≤ 0.99 := by
  have h0 := riscoScore_nonneg d
  have h1 := riscoScore_le_one d
  simp only [calcular_risco_avancado]
  split_ifs <;>
    exact ⟨h0, h1, le_max_left _ _, max_le (by norm_num) (min_le_left _ _)⟩

/-- C2 witness: the bounds evaluated on the spec's low-risk example. -/
theorem score_e_probabilidade_limitados_witness :
    0 ≤ (calcular_risco_avancado exemploBaixoRisco).2.2.1
    ∧ (calcular_risco_avancado exemploBaixoRisco).2.2.1 ≤ 1
    ∧ 0.01 ≤ (calcular_risco_avancado exemploBaixoRisco).2.1
    ∧ (calcular_risco_avancado exemploBaixoRisco).2.1 ≤ 0.99 :=
  score_e_probabilidade_limitados exemploBaixoRisco

/-- C3: the spec's two worked examples evaluate exactly as stated: the
35-year-old female record scores 0.10 with the age band as its only
increment, category Low and probability 0.067 = 0.10 × 0.67; the 65-year-old
male record accumulates increments beyond 0.75, is High, with probability at
least 0.85. -/
theorem exemplos_do_spec_avaliam_como_especificado :
    calcular_risco_avancado exemploBaixoRisco = ("Baixo Risco", 0.067, 0.10, 0.85)
    ∧ scoreBruto exemploBaixoRisco = pontosIdade exemploBaixoRisco.idade
    ∧ 0.75 < scoreBruto exemploAltoRisco
    ∧ (calcular_risco_avancado exemploAltoRisco).1 = "Alto Risco"
    ∧ 0.85 ≤ (calcular_risco_avancado exemploAltoRisco).2.1 := by
  refine ⟨?_, ?_, ?_, ?_, ?_⟩ <;>
    norm_num [calcular_risco_avancado, riscoScore, scoreBruto, pontosIdade, pontosPressao, pontosBMI, pontosColesterol, pontosGlicose, pontosSintomas, pontosMedicamentos, pontosVisitas, pontosGenero, calcular_bmi, round2, roundHalfEven, exemploBaixoRisco, exemploAltoRisco]

/-- C8: the BMI that the scorer compares against the band thresholds is
`round(peso / altura ** 2, 2)`, not the raw quotient; on the valid record
with raw BMI 24.996 the rounded value is 25.00, so the scorer adds the
overweight increment 0.08 even though the spec's derived value
weight/height² lies below the 25 threshold (raw band contribution 0). -/
theorem bmi_arredondado_cruza_limiar :
    (∀ p a : ℚ, (calcular_bmi p a).1 = round2 (p / a ^ 2))
    ∧ Valid exemploBMI
    ∧ exemploBMI.peso / exemploBMI.altura ^ 2 < 25
    ∧ (calcular_bmi exemploBMI.peso exemploBMI.altura).1 = 25
    ∧ pontosBMI (exemploBMI.peso / exemploBMI.altura ^ 2) = 0
    ∧ riscoScore exemploBMI = 0.08 := by
  refine ⟨fun p a => rfl, ?_, ?_, ?_, ?_, ?_⟩
  · norm_num [Valid, exemploBMI]
  · norm_num [exemploBMI]
  · norm_num [calcular_bmi, round2, roundHalfEven, exemploBMI]
  · norm_num [pontosBMI, exemploBMI]
  · norm_num [calcular_risco_avancado, riscoScore, scoreBruto, pontosIdade, pontosPressao, pontosBMI, pontosColesterol, pontosGlicose, pontosSintomas, pontosMedicamentos, pontosVisitas, pontosGenero, calcular_bmi, round2, roundHalfEven, exemploBMI]

/-- C10: the dashboard scorer is not equivalent to the API scorer: on the
valid record (age 55, male, cholesterol 200, glucose 100, everything else
below all thresholds) the API returns category Medium while the dashboard
returns category Low; moreover the dashboard ignores gender entirely and
does not clamp its score at 1.0 (it returns 1.48 on a maxed-out input). -/
theorem dashboard_diverge_da_api :
    Valid exemploDivergente
    ∧ dadosDivergente.bmi = exemploDivergente.peso / exemploDivergente.altura ^ 2
    ∧ (calcular_risco_avancado exemploDivergente).1 = "Medio Risco"
    ∧ (calcular_risco_simulado dadosDivergente).1 = "Baixo Risco"
    ∧ (∀ g : String, calcular_risco_simulado { dadosDivergente with genero := g }
        = calcular_risco_simulado dadosDivergente)
    ∧ (calcular_risco_simulado dadosExtremos).2.2.1 = 1.48 := by
  refine ⟨?_, ?_, ?_, ?_, fun g => rfl, ?_⟩
  · norm_num [Valid, exemploDivergente]
  · norm_num [dadosDivergente, exemploDivergente]
  · norm_num [calcular_risco_avancado, riscoScore, scoreBruto, pontosIdade, pontosPressao, pontosBMI, pontosColesterol, pontosGlicose, pontosSintomas, pontosMedicamentos, pontosVisitas, pontosGenero, calcular_bmi, round2, roundHalfEven, exemploDivergente]
  · norm_num [calcular_risco_simulado, dadosDivergente]
  · norm_num [calcular_risco_simulado, dadosExtremos]

/-- C4 (amended): symptom increments are additive and independent on the raw
accumulated score: flipping any currently-false symptom flag to true raises
the pre-clamp sum by exactly its fixed increment (chest pain +0.20,
shortness of breath +0.15, fatigue +0.10, dizziness +0.08), never
interacting with the other flags; the returned clamped score rises by
exactly that increment whenever the raised sum still lies within the 1.0
cap (the cap can absorb the increment otherwise). -/
theorem sintomas_aditivos_e_independentes (d : PacienteInput) :
    (d.dor_peito = false →
      scoreBruto { d with dor_peito := true } = scoreBruto d + 0.20
      ∧ (scoreBruto d + 0.20 ≤ 1 →
          riscoScore { d with dor_peito := true } = riscoScore d + 0.20))
    ∧ (d.falta_ar = false →
      scoreBruto { d with falta_ar := true } = scoreBruto d + 0.15
      ∧ (scoreBruto d + 0.15 ≤ 1 →
          riscoScore { d with falta_ar := true } = riscoScore d + 0.15))
    ∧ (d.fadiga = false →
      scoreBruto { d with fadiga := true } = scoreBruto d + 0.10
      ∧ (scoreBruto d + 0.10 ≤ 1 →
          riscoScore { d with fadiga := true } = riscoScore d + 0.10))
    ∧ (d.tontura = false →
      scoreBruto { d with tontura := true } = scoreBruto d + 0.08
      ∧ (scoreBruto d + 0.08 ≤ 1 →
          riscoScore { d with tontura := true } = riscoScore d + 0.08)) := by
  have key : ∀ (d' : PacienteInput) (inc : ℚ), 0 ≤ inc →
      scoreBruto d' = scoreBruto d + inc → scoreBruto d + inc ≤ 1 →
      riscoScore d' = riscoScore d + inc := by
    intro d' inc hinc h hle
    have h1 : riscoScore d' = scoreBruto d + inc := by
      rw [riscoScore, h]
      exact min_eq_left hle
    have h2 : riscoScore d = scoreBruto d := min_eq_left (by linarith)
    rw [h1, h2]
  refine ⟨fun h => ?_, fun h => ?_, fun h => ?_, fun h => ?_⟩ <;>
    refine ⟨?_, fun hle => key _ _ (by norm_num) ?_ hle⟩ <;>
    · simp only [scoreBruto, pontosSintomas, h]
      norm_num
      ring

/-- C4 witness: the additivity instantiated on the low-risk example, whose
raw score 0.10 leaves room below the cap for every symptom increment. -/
theorem sintomas_aditivos_e_independentes_witness :
    scoreBruto { exemploBaixoRisco with dor_peito := true }
        = scoreBruto exemploBaixoRisco + 0.20
    ∧ riscoScore { exemploBaixoRisco with tontura := true }
        = riscoScore exemploBaixoRisco + 0.08 := by
  have h := sintomas_aditivos_e_independentes exemploBaixoRisco
  refine ⟨(h.1 ?_).1, (h.2.2.2 ?_).2 ?_⟩
  · norm_num [exemploBaixoRisco]
  · norm_num [exemploBaixoRisco]
  · norm_num [scoreBruto, pontosIdade, pontosPressao, pontosBMI, pontosColesterol,
      pontosGlicose, pontosSintomas, pontosMedicamentos, pontosVisitas, pontosGenero,
      calcular_bmi, round2, roundHalfEven, exemploBaixoRisco]

/-- C4 counterexample: on the valid high-risk example record (chest pain
already true, dizziness false, raw sum 1.68), turning dizziness on leaves
the returned score at the 1.0 cap instead of raising it by 0.08, so the
claim is false for the returned score. -/
theorem sintomas_aditivos_contraexemplo_clamp :
    Valid exemploAltoRisco
    ∧ exemploAltoRisco.dor_peito = true
    ∧ exemploAltoRisco.tontura = false
    ∧ riscoScore { exemploAltoRisco with tontura := true }
        ≠ riscoScore exemploAltoRisco + 0.08 := by
  refine ⟨?_, ?_, ?_, ?_⟩
  · norm_num [Valid, exemploAltoRisco]
  · norm_num [exemploAltoRisco]
  · norm_num [exemploAltoRisco]
  · norm_num [riscoScore, scoreBruto, pontosIdade, pontosPressao, pontosBMI,
      pontosColesterol, pontosGlicose, pontosSintomas, pontosMedicamentos,
      pontosVisitas, pontosGenero, calcular_bmi, round2, roundHalfEven, exemploAltoRisco]

/-- C5: the returned score is monotonically non-decreasing in each risk
factor's severity: raising age, systolic or diastolic pressure, weight (BMI),
cholesterol, glucose, medication count or annual visits, or turning any
symptom flag from false to true — holding every other field fixed — never
decreases the returned score. -/
theorem riscoScore_monotono_por_fator (d : PacienteInput) :
    (∀ i i' : ℤ, i ≤ i' →
      riscoScore { d with idade := i } ≤ riscoScore { d with idade := i' })
    ∧ (∀ v v' : ℚ, v ≤ v' →
      riscoScore { d with pressao_sistolica := v }
        ≤ riscoScore { d with pressao_sistolica := v' })
    ∧ (∀ v v' : ℚ, v ≤ v' →
      riscoScore { d with pressao_diastolica := v }
        ≤ riscoScore { d with pressao_diastolica := v' })
    ∧ (∀ v v' : ℚ, v ≤ v' →
      riscoScore { d with peso := v } ≤ riscoScore { d with peso := v' })
    ∧ (∀ v v' : ℚ, v ≤ v' →
      riscoScore { d with colesterol := v } ≤ riscoScore { d with colesterol := v' })
    ∧ (∀ v v' : ℚ, v ≤ v' →
      riscoScore { d with glicose := v } ≤ riscoScore { d with glicose := v' })
    ∧ (∀ n n' : ℤ, n ≤ n' →
      riscoScore { d with num_medicamentos := n }
        ≤ riscoScore { d with num_medicamentos := n' })
    ∧ (∀ n n' : ℤ, n ≤ n' →
      riscoScore { d with visitas_anuais := n }
        ≤ riscoScore { d with visitas_anuais := n' })
    ∧ riscoScore { d with dor_peito := false } ≤ riscoScore { d with dor_peito := true }
    ∧ riscoScore { d with falta_ar := false } ≤ riscoScore { d with falta_ar := true }
    ∧ riscoScore { d with fadiga := false } ≤ riscoScore { d with fadiga := true }
    ∧ riscoScore { d with tontura := false } ≤ riscoScore { d with tontura := true } := by
  refine ⟨fun i i' h => min_le_min ?_ le_rfl, fun v v' h => min_le_min ?_ le_rfl,
    fun v v' h => min_le_min ?_ le_rfl, fun v v' h => min_le_min ?_ le_rfl,
    fun v v' h => min_le_min ?_ le_rfl, fun v v' h => min_le_min ?_ le_rfl,
    fun n n' h => min_le_min ?_ le_rfl, fun n n' h => min_le_min ?_ le_rfl,
    min_le_min ?_ le_rfl, min_le_min ?_ le_rfl, min_le_min ?_ le_rfl,
    min_le_min ?_ le_rfl⟩ <;> simp only [scoreBruto]
  · linarith [pontosIdade_mono h]
  · linarith [pontosPressao_mono_sistolica (d := d.pressao_diastolica) h]
  · linarith [pontosPressao_mono_diastolica (s := d.pressao_sistolica) h]
  · linarith [pontosBMI_mono (calcular_bmi_mono_peso (a := d.altura) h)]
  · linarith [pontosColesterol_mono h]
  · linarith [pontosGlicose_mono h]
  · linarith [pontosMedicamentos_mono h]
  · linarith [pontosVisitas_mono h]
  · linarith [pontosSintomas_mono_dor d.falta_ar d.fadiga d.tontura]
  · linarith [pontosSintomas_mono_ar d.dor_peito d.fadiga d.tontura]
  · linarith [pontosSintomas_mono_fadiga d.dor_peito d.falta_ar d.tontura]
  · linarith [pontosSintomas_mono_tontura d.dor_peito d.falta_ar d.fadiga]

/-- C5 witness: the monotonicity instantiated at concrete pairs on the
low-risk example record. -/
theorem riscoScore_monotono_por_fator_witness :
    riscoScore { exemploBaixoRisco with idade := 40 }
        ≤ riscoScore { exemploBaixoRisco with idade := 80 }
    ∧ riscoScore { exemploBaixoRisco with pressao_sistolica := 100 }
        ≤ riscoScore { exemploBaixoRisco with pressao_sistolica := 200 }
    ∧ riscoScore { exemploBaixoRisco with pressao_diastolica := 60 }
        ≤ riscoScore { exemploBaixoRisco with pressao_diastolica := 100 }
    ∧ riscoScore { exemploBaixoRisco with peso := 60 }
        ≤ riscoScore { exemploBaixoRisco with peso := 120 }
    ∧ riscoScore { exemploBaixoRisco with colesterol := 150 }
        ≤ riscoScore { exemploBaixoRisco with colesterol := 250 }
    ∧ riscoScore { exemploBaixoRisco with glicose := 90 }
        ≤ riscoScore { exemploBaixoRisco with glicose := 150 }
    ∧ riscoScore { exemploBaixoRisco with num_medicamentos := 1 }
        ≤ riscoScore { exemploBaixoRisco with num_medicamentos := 6 }
    ∧ riscoScore { exemploBaixoRisco with visitas_anuais := 1 }
        ≤ riscoScore { exemploBaixoRisco with visitas_anuais := 7 } := by
  have h := riscoScore_monotono_por_fator exemploBaixoRisco
  exact ⟨h.1 40 80 (by norm_num), h.2.1 100 200 (by norm_num),
    h.2.2.1 60 100 (by norm_num), h.2.2.2.1 60 120 (by norm_num),
    h.2.2.2.2.1 150 250 (by norm_num), h.2.2.2.2.2.1 90 150 (by norm_num),
    h.2.2.2.2.2.2.1 1 6 (by norm_num), h.2.2.2.2.2.2.2.1 1 7 (by norm_num)⟩

/-- C6 (amended): the four near-verbatim copies of `calcular_risco_avancado`
are behaviourally equal up to one string accent: the final and windows
copies return exactly the backend tuple on every input; the corrigida copy
returns the same probability, score and confidence, and the same category
except that its medium category carries an accent ("Médio Risco" instead of
"Medio Risco"). -/
theorem quatro_copias_equivalentes_exceto_acento :
    (∀ d : PacienteInput, calcular_risco_avancado_final d = calcular_risco_avancado d)
    ∧ (∀ d : PacienteInput, calcular_risco_avancado_windows d = calcular_risco_avancado d)
    ∧ (∀ d : PacienteInput,
        (calcular_risco_avancado_corrigida d).2 = (calcular_risco_avancado d).2)
    ∧ (∀ d : PacienteInput,
        (calcular_risco_avancado_corrigida d).1 =
          if (calcular_risco_avancado d).1 = "Medio Risco" then "Médio Risco"
          else (calcular_risco_avancado d).1) := by
  have hc : ∀ d : PacienteInput, calcular_risco_avancado_corrigida d =
      (if riscoScore d ≥ 0.75 then
        (("Alto Risco" : String),
          max 0.01 (min 0.99 (0.85 + (riscoScore d - 0.75) * 0.6)), riscoScore d, (0.92 : ℚ))
      else if riscoScore d ≥ 0.45 then
        ("Médio Risco",
          max 0.01 (min 0.99 (0.30 + (riscoScore d - 0.45) * 1.83)), riscoScore d, 0.88)
      else
        ("Baixo Risco", max 0.01 (min 0.99 (riscoScore d * 0.67)), riscoScore d, 0.85)) :=
    fun d => rfl
  refine ⟨fun d => rfl, fun d => rfl, fun d => ?_, fun d => ?_⟩
  · rw [hc d]
    simp only [calcular_risco_avancado]
    split_ifs <;> rfl
  · rw [hc d]
    clear hc
    simp only [calcular_risco_avancado]
    split_ifs <;> simp_all

/-- C6 counterexample: on the valid medium-risk example record the corrigida
copy returns "Médio Risco" while the backend returns "Medio Risco", so the
four copies do not all return the same tuple. -/
theorem corrigida_diverge_no_exemplo_medio :
    Valid exemploMedioRisco
    ∧ calcular_risco_avancado_corrigida exemploMedioRisco
        ≠ calcular_risco_avancado exemploMedioRisco := by
  have e1 : calcular_risco_avancado_corrigida exemploMedioRisco
      = ("Médio Risco", 0.8124, 0.73, 0.88) := by
    norm_num [calcular_risco_avancado_corrigida, calcular_bmi, round2, roundHalfEven,
      exemploMedioRisco]
  have e2 : calcular_risco_avancado exemploMedioRisco
      = ("Medio Risco", 0.8124, 0.73, 0.88) := by
    norm_num [calcular_risco_avancado, riscoScore, scoreBruto, pontosIdade, pontosPressao,
      pontosBMI, pontosColesterol, pontosGlicose, pontosSintomas, pontosMedicamentos,
      pontosVisitas, pontosGenero, calcular_bmi, round2, roundHalfEven, exemploMedioRisco]
  refine ⟨by norm_num [Valid, exemploMedioRisco], ?_⟩
  rw [e1, e2]
  simp

/-- C7 (amended): `gerar_explicacoes_shap` in src/backend/main.py emits one
(factor, value, contribution, interpretation) tuple for each of its four
checked factors whose threshold is crossed (age above 50, systolic above
140, rounded BMI above 30, chest pain), with the stated contribution
magnitudes — but in fixed source order, without sorting the risk-factor
list by contribution (the explicit sort exists only in the corrigida,
windows and dashboard variants). -/
theorem explicacoes_emitem_fator_por_limiar (d : PacienteInput) (categoria : String) :
    ((gerar_explicacoes_shap d categoria).fatores_risco.length =
      (if 50 < d.idade then 1 else 0) + (if 140 < d.pressao_sistolica then 1 else 0)
        + (if 30 < (calcular_bmi d.peso d.altura).1 then 1 else 0)
        + (if d.dor_peito then 1 else 0))
    ∧ ((50 : ℤ) < d.idade ↔
        ∃ e ∈ (gerar_explicacoes_shap d categoria).fatores_risco,
          e.fator = "Idade" ∧ e.impacto = ((d.idade : ℚ) - 50) * 0.005)
    ∧ ((140 : ℚ) < d.pressao_sistolica ↔
        ∃ e ∈ (gerar_explicacoes_shap d categoria).fatores_risco,
          e.fator = "Pressao Sistolica" ∧ e.impacto = (d.pressao_sistolica - 140) * 0.003)
    ∧ ((30 : ℚ) < (calcular_bmi d.peso d.altura).1 ↔
        ∃ e ∈ (gerar_explicacoes_shap d categoria).fatores_risco,
          e.fator = "BMI" ∧ e.impacto = ((calcular_bmi d.peso d.altura).1 - 30) * 0.015)
    ∧ (d.dor_peito = true ↔
        ∃ e ∈ (gerar_explicacoes_shap d categoria).fatores_risco,
          e.fator = "Dor no Peito" ∧ e.impacto = 0.20) := by
  simp only [gerar_explicacoes_shap]
  by_cases h1 : (50 : ℤ) < d.idade <;> by_cases h2 : (140 : ℚ) < d.pressao_sistolica <;>
    by_cases h3 : (30 : ℚ) < (calcular_bmi d.peso d.altura).1 <;>
    by_cases h4 : d.dor_peito = true <;>
    simp [h1, h2, h3, h4]

/-- C7 counterexample: on a valid record with age 51 and chest pain, the
emitted risk-factor list has contributions [0.005, 0.20], which is not
sorted in descending order. -/
theorem fatores_risco_fora_de_ordem :
    Valid exemploExplicacao
    ∧ ((gerar_explicacoes_shap exemploExplicacao "Baixo Risco").fatores_risco.map
        ExplicacaoSHAP.impacto = [0.005, 0.20])
    ∧ ¬ List.Sorted (· ≥ ·)
        ((gerar_explicacoes_shap exemploExplicacao "Baixo Risco").fatores_risco.map
          ExplicacaoSHAP.impacto) := by
  have hmap : (gerar_explicacoes_shap exemploExplicacao "Baixo Risco").fatores_risco.map
      ExplicacaoSHAP.impacto = [0.005, 0.20] := by
    norm_num [gerar_explicacoes_shap, calcular_bmi, round2, roundHalfEven, exemploExplicacao]
  refine ⟨by norm_num [Valid, exemploExplicacao], hmap, ?_⟩
  rw [hmap]
  intro hs
  have h := (List.sorted_cons.mp hs).1 0.20 (by simp)
  norm_num at h

/-- C9: under exact arithmetic the probability intervals of the three
categories are pairwise disjoint, so the category is recoverable from the
probability alone: Low implies probability at most 0.2948 (the largest
score below 0.45 reachable from increments that are all multiples of 0.01
is 0.44) and below 0.30; Medium implies probability in [0.30, 0.85); High
implies probability in [0.85, 0.99]. -/
theorem probabilidade_recupera_categoria (d : PacienteInput) :
    ((calcular_risco_avancado d).1 = "Baixo Risco" →
      (calcular_risco_avancado d).2.1 ≤ 0.2948 ∧ (calcular_risco_avancado d).2.1 < 0.30)
    ∧ ((calcular_risco_avancado d).1 = "Medio Risco" →
      0.30 ≤ (calcular_risco_avancado d).2.1 ∧ (calcular_risco_avancado d).2.1 < 0.85)
    ∧ ((calcular_risco_avancado d).1 = "Alto Risco" →
      0.85 ≤ (calcular_risco_avancado d).2.1 ∧ (calcular_risco_avancado d).2.1 ≤ 0.99) := by
  have hle1 := riscoScore_le_one d
  obtain ⟨n, hn⟩ := scoreBruto_cem d
  simp only [calcular_risco_avancado]
  split_ifs with hA hM
  · refine ⟨fun hc => absurd hc (by simp), fun hc => absurd hc (by simp), fun hc => ?_⟩
    have h5 : (0.85 : ℚ) ≤ min 0.99 (0.85 + (riscoScore d - 0.75) * 0.6) :=
      le_min (by norm_num) (by linarith)
    exact ⟨le_trans h5 (le_max_right _ _), max_le (by norm_num) (min_le_left _ _)⟩
  · push_neg at hA
    refine ⟨fun hc => absurd hc (by simp), fun hc => ?_, fun hc => absurd hc (by simp)⟩
    have hmin : min (0.99 : ℚ) (0.30 + (riscoScore d - 0.45) * 1.83)
        = 0.30 + (riscoScore d - 0.45) * 1.83 := min_eq_right (by linarith)
    have hmax : max (0.01 : ℚ) (0.30 + (riscoScore d - 0.45) * 1.83)
        = 0.30 + (riscoScore d - 0.45) * 1.83 := max_eq_right (by linarith)
    constructor
    · show (0.30 : ℚ) ≤ max 0.01 (min 0.99 (0.30 + (riscoScore d - 0.45) * 1.83))
      rw [hmin, hmax]
      linarith
    · show max 0.01 (min 0.99 (0.30 + (riscoScore d - 0.45) * 1.83)) < 0.85
      rw [hmin, hmax]
      linarith
  · push_neg at hA hM
    refine ⟨fun hc => ?_, fun hc => absurd hc (by simp), fun hc => absurd hc (by simp)⟩
    have hbr : scoreBruto d < 0.45 := by
      by_contra hcon
      push_neg at hcon
      have : (0.45 : ℚ) ≤ riscoScore d := le_min hcon (by norm_num)
      linarith
    have hmin : riscoScore d = scoreBruto d := min_eq_left (by linarith)
    have hcast : (n : ℚ) < 45 := by
      rw [hn] at hbr
      linarith
    have hnle : n ≤ 44 := by
      have : n < 45 := by exact_mod_cast hcast
      omega
    have hs44 : riscoScore d ≤ 0.44 := by
      rw [hmin, hn]
      have : (n : ℚ) ≤ 44 := by exact_mod_cast hnle
      linarith
    have hs0 : 0 ≤ riscoScore d := riscoScore_nonneg d
    have hminq : min (0.99 : ℚ) (riscoScore d * 0.67) = riscoScore d * 0.67 :=
      min_eq_right (by linarith)
    constructor
    · show max 0.01 (min 0.99 (riscoScore d * 0.67)) ≤ 0.2948
      rw [hminq]
      exact max_le (by norm_num) (by linarith)
    · show max 0.01 (min 0.99 (riscoScore d * 0.67)) < 0.30
      rw [hminq]
      exact max_lt (by norm_num) (by linarith)

/-- C9 witness: the interval bounds instantiated on the three example
records (one per category). -/
theorem probabilidade_recupera_categoria_witness :
    (calcular_risco_avancado exemploBaixoRisco).2.1 < 0.30
    ∧ 0.30 ≤ (calcular_risco_avancado exemploMedioRisco).2.1
    ∧ 0.85 ≤ (calcular_risco_avancado exemploAltoRisco).2.1 := by
  refine ⟨((probabilidade_recupera_categoria exemploBaixoRisco).1 ?_).2,
    ((probabilidade_recupera_categoria exemploMedioRisco).2.1 ?_).1,
    ((probabilidade_recupera_categoria exemploAltoRisco).2.2 ?_).1⟩
  · norm_num [calcular_risco_avancado, riscoScore, scoreBruto, pontosIdade, pontosPressao,
      pontosBMI, pontosColesterol, pontosGlicose, pontosSintomas, pontosMedicamentos,
      pontosVisitas, pontosGenero, calcular_bmi, round2, roundHalfEven, exemploBaixoRisco]
  · norm_num [calcular_risco_avancado, riscoScore, scoreBruto, pontosIdade, pontosPressao,
      pontosBMI, pontosColesterol, pontosGlicose, pontosSintomas, pontosMedicamentos,
      pontosVisitas, pontosGenero, calcular_bmi, round2, roundHalfEven, exemploMedioRisco]
  · norm_num [calcular_risco_avancado, riscoScore, scoreBruto, pontosIdade, pontosPressao,
      pontosBMI, pontosColesterol, pontosGlicose, pontosSintomas, pontosMedicamentos,
      pontosVisitas, pontosGenero, calcular_bmi, round2, roundHalfEven, exemploAltoRisco]

end CardioCare

